import Mathlib

/-!
Verification development for the persona-chat server core: the session /
message state machine behind the request router (`src/server/routes.ts`)
and the client-side persona filter (`src/client/src/components/sidebar.tsx`).

The storage layer (`storage.ts`) is not part of the provided sources; its
operations are modelled from the specification (sections 4.1 - 4.3) and are
marked as such in their doc comments.  All router logic is translated
directly from `routes.ts`.
-/

/-- A persona from the catalog: numeric id, name, era/lifespan label,
category, description (`src/client/src/lib/types` shape, as used by the
router and the sidebar). -/
structure Persona where
  id : Nat
  name : String
  lifespan : String
  category : String
  description : String
deriving Repr, DecidableEq

/-- A chat session: opaque string token and optional currently selected
persona id (`chatSessions` row shape as used by `routes.ts`). -/
structure ChatSession where
  sessionId : String
  currentPersonaId : Option Nat
deriving Repr, DecidableEq

/-- One message of a session log: sequential id, owning session, role
(`user` / `assistant` / `system`), content, persona active at creation. -/
structure Message where
  id : Nat
  sessionId : String
  role : String
  content : String
  personaId : Option Nat
deriving Repr, DecidableEq

/-- The in-memory store: persona catalog, session table, global append-only
message log, and the next message id. -/
structure Storage where
  personas : List Persona
  sessions : List ChatSession
  messages : List Message
  nextMessageId : Nat
deriving Repr, DecidableEq

/-- Error taxonomy of the router (spec section 7): validation (400),
not-found (404), generator unavailable (503), internal (500). -/
inductive ApiError where
  | validation (msg : String)
  | notFound (msg : String)
  | generatorUnavailable
  | internal
deriving Repr, DecidableEq

/-- HTTP status the router maps each error kind to (`res.status` literals
in `routes.ts`). -/
def ApiError.status : ApiError → Nat
  | .validation _ => 400
  | .notFound _ => 404
  | .generatorUnavailable => 503
  | .internal => 500

/-- Outcome of a route handler: success with an HTTP status and payload, or
an error. -/
inductive RouteResult (α : Type) where
  | ok (status : Nat) (val : α)
  | err (e : ApiError)
deriving Repr, DecidableEq

/-- Modelled from the spec: `list() -> all personas`
(section 4.3; `storage.getPersonas`, `storage.ts` is absent from the
provided sources). -/
def Storage.getPersonas (st : Storage) : List Persona :=
  st.personas

/-- Modelled from the spec: `getById(id) -> Persona | not-found`
(section 4.3; `storage.getPersonaById`). -/
def Storage.getPersonaById (st : Storage) (id : Nat) : Option Persona :=
  st.personas.find? (fun p => p.id == id)

/-- `needle` occurs as a contiguous sublist of `hay`. -/
def listHasInfix (needle : List Char) : List Char → Bool
  | [] => needle.isEmpty
  | c :: rest => needle.isPrefixOf (c :: rest) || listHasInfix needle rest

/-- The characters of a string, lowercased (`s.toLowerCase()`). -/
def lowerChars (s : String) : List Char :=
  s.toList.map Char.toLower

/-- Case-insensitive substring containment, the semantics of
`a.toLowerCase().includes(b.toLowerCase())` in the sidebar and of the
spec's "contains query, case-insensitively". -/
def containsCI (hay needle : String) : Bool :=
  listHasInfix (lowerChars needle) (lowerChars hay)

/-- The test `content.trim() === ""` of the send-message route: the string
consists only of whitespace (so trimming both ends leaves nothing). -/
def isBlank (c : String) : Bool :=
  c.toList.all Char.isWhitespace

/-- Predicate of the persona search: name or description contains the
query case-insensitively. -/
def personaMatches (q : String) (p : Persona) : Bool :=
  containsCI p.name q || containsCI p.description q

/-- Modelled from the spec: `search(query) -> subset whose name or
description contains query, case-insensitively` (section 4.3;
`storage.searchPersonas`). -/
def Storage.searchPersonas (st : Storage) (q : String) : List Persona :=
  st.personas.filter (personaMatches q)

/-- Modelled from the spec: `getSession(id) -> Session | not-found`
(section 4.1; `storage.getChatSessionById`). -/
def Storage.getChatSessionById (st : Storage) (sid : String) : Option ChatSession :=
  st.sessions.find? (fun s => s.sessionId == sid)

/-- Modelled from the spec: session creation allocating/recording the
identifier and optionally binding a persona (section 4.1;
`storage.createChatSession`). -/
def Storage.createChatSession (st : Storage) (sid : String)
    (personaId : Option Nat) : Storage × ChatSession :=
  let s : ChatSession := ⟨sid, personaId⟩
  ({ st with sessions := st.sessions ++ [s] }, s)

/-- Modelled from the spec: `setSessionPersona(id, personaId) -> Session`:
fails with `NotFoundError` if session or persona does not exist, and
rebinds the session's persona without writing any system message
(section 4.1; `storage.updateChatSessionPersona`).  The `NotFoundError` is
modelled as `none` with the store unchanged. -/
def Storage.updateChatSessionPersona (st : Storage) (sid : String)
    (pid : Nat) : Storage × Option ChatSession :=
  match st.getPersonaById pid with
  | none => (st, none)
  | some _ =>
    match st.getChatSessionById sid with
    | none => (st, none)
    | some s =>
      let s' : ChatSession := { s with currentPersonaId := some pid }
      ({ st with
          sessions := st.sessions.map (fun t => if t.sessionId == sid then s' else t) },
        some s')

/-- Modelled from the spec: `append(sessionId, role, content, personaId) ->
Message`, appending to the per-session ordered log (section 4.2;
`storage.createMessage`). -/
def Storage.createMessage (st : Storage) (sid role content : String)
    (pid : Option Nat) : Storage × Message :=
  let m : Message := ⟨st.nextMessageId, sid, role, content, pid⟩
  ({ st with messages := st.messages ++ [m], nextMessageId := st.nextMessageId + 1 }, m)

/-- Modelled from the spec: `listBySession(sessionId) -> ordered sequence
of Message` (section 4.2; `storage.getMessagesBySessionId`). -/
def Storage.getMessagesBySessionId (st : Storage) (sid : String) : List Message :=
  st.messages.filter (fun m => m.sessionId == sid)

/-- `GET /api/personas/search` (`routes.ts` lines 34-48): a missing query
is read as `""`; an empty query returns the whole catalog, otherwise the
search subset. -/
def searchRoute (st : Storage) (q : Option String) : List Persona :=
  let query := q.getD ""
  if query = "" then st.getPersonas
  else st.searchPersonas query

/-- `POST /api/sessions` (`routes.ts` lines 71-127).  JavaScript treats a
supplied `personaId` of `0` as falsy (`personaId || undefined`,
`personaId && ...`), which the normalisation at the top reproduces.  With
no `sessionId` a fresh token (`freshId`, standing for `nanoid()`) is used;
with a `sessionId` naming an existing session the session is returned,
except that a supplied differing `personaId` rebinds the session's persona
first — the router itself performs no catalog check and emits no system
message; a storage `NotFoundError` lands in the catch block and surfaces
as the 500 internal error. -/
def createSessionRoute (st : Storage) (sessionId : Option String)
    (personaId0 : Option Nat) (freshId : String) :
    Storage × RouteResult ChatSession :=
  let personaId : Option Nat :=
    match personaId0 with
    | some 0 => none
    | x => x
  match sessionId with
  | none =>
    let (st1, s) := st.createChatSession freshId personaId
    (st1, .ok 201 s)
  | some sid =>
    match st.getChatSessionById sid with
    | some existingSession =>
      match personaId with
      | some pid =>
        if existingSession.currentPersonaId ≠ some pid then
          match st.updateChatSessionPersona sid pid with
          | (st1, some updated) => (st1, .ok 200 updated)
          | (st1, none) => (st1, .err .internal)
        else (st, .ok 200 existingSession)
      | none => (st, .ok 200 existingSession)
    | none =>
      let (st1, s) := st.createChatSession sid personaId
      (st1, .ok 201 s)

/-- `PATCH /api/sessions/:sessionId/persona` (`routes.ts` lines 130-169):
400 on a missing/non-numeric persona id, 404 if the persona does not
exist, 404 if the session does not exist; otherwise rebind the persona and
append one `system`-role message naming the new persona. -/
def changePersonaRoute (st : Storage) (sessionId : String)
    (personaId : Option Nat) : Storage × RouteResult ChatSession :=
  match personaId with
  | none => (st, .err (.validation "Invalid persona ID"))
  | some pid =>
    match st.getPersonaById pid with
    | none => (st, .err (.notFound "Persona not found"))
    | some persona =>
      match st.getChatSessionById sessionId with
      | none => (st, .err (.notFound "Chat session not found"))
      | some _ =>
        match st.updateChatSessionPersona sessionId pid with
        | (st1, some updatedSession) =>
          let (st2, _) := st1.createMessage sessionId "system"
            ("You are now chatting with " ++ persona.name ++ ".") (some pid)
          (st2, .ok 200 updatedSession)
        | (st1, none) => (st1, .err .internal)

/-- The conversation history the send-message route hands to the generator
(`routes.ts` lines 228-242), computed over the log that already holds the
just-persisted user message: drop `system` messages, keep `(role, content)`
pairs, drop the final element (`slice(0, -1)`). -/
def conversationHistorySent (st : Storage) (sid : String) :
    List (String × String) :=
  (((st.getMessagesBySessionId sid).filter (fun m => m.role ≠ "system")).map
    (fun m => (m.role, m.content))).dropLast

/-- `POST /api/sessions/:sessionId/messages` (`routes.ts` lines 191-278).
`content` is `none` for a missing or non-string body field.  The generator
call (`generatePersonaResponse`, whose source is absent) is a parameter
`gen`; `none` stands for the call failing with the OpenAI-API error that
the route maps to 503. -/
def sendMessageRoute (st : Storage) (sessionId : String)
    (content : Option String)
    (gen : Persona → List (String × String) → String → Option String) :
    Storage × RouteResult (Message × Message) :=
  match content with
  | none => (st, .err (.validation "Message content is required"))
  | some c =>
    if isBlank c then
      (st, .err (.validation "Message content is required"))
    else
      match st.getChatSessionById sessionId with
      | none => (st, .err (.notFound "Chat session not found"))
      | some session =>
        match session.currentPersonaId with
        | none => (st, .err (.validation "No persona selected for this chat session"))
        | some pid =>
          match st.getPersonaById pid with
          | none => (st, .err (.notFound "Persona not found"))
          | some persona =>
            let (st1, savedUserMessage) :=
              st.createMessage sessionId "user" c (some pid)
            match gen persona (conversationHistorySent st1 sessionId) c with
            | none => (st1, .err .generatorUnavailable)
            | some aiContent =>
              let (st2, savedAssistantMessage) :=
                st1.createMessage sessionId "assistant" aiContent (some pid)
              (st2, .ok 201 (savedUserMessage, savedAssistantMessage))

/-- `DELETE /api/sessions/:sessionId/messages` (`routes.ts` lines 281-285):
the handler only answers 204 and touches no state. -/
def clearMessagesRoute (st : Storage) (_sessionId : String) :
    Storage × RouteResult Unit :=
  (st, .ok 204 ())

/-- `filteredPersonas` of the sidebar (`sidebar.tsx` lines 44-53): keep
personas matching the search text (empty text matches all) and the
selected category (`All` matches all). -/
def filteredPersonas (personas : List Persona) (searchQuery : String)
    (selectedCategory : String) : List Persona :=
  personas.filter (fun persona =>
    (searchQuery == "" || containsCI persona.name searchQuery
      || containsCI persona.description searchQuery)
    && (selectedCategory == "All" || persona.category == selectedCategory))

/-- The data-model invariant of spec section 3: a session's persona
reference, when present, names an existing persona. -/
def personaRefInvariant (st : Storage) : Bool :=
  st.sessions.all (fun s =>
    match s.currentPersonaId with
    | none => true
    | some pid => st.personas.any (fun p => p.id == pid))

/-! ### Concrete fixtures used by witnesses and counterexamples -/

/-- A seeded persona. -/
def einstein : Persona :=
  ⟨1, "Albert Einstein", "1879-1955", "Scientists", "Physicist and developer of relativity"⟩

/-- Another seeded persona. -/
def cleopatra : Persona :=
  ⟨2, "Cleopatra", "69-30 BC", "Leaders", "Queen of Egypt"⟩

/-- Catalog with two personas, one session bound to persona 1, empty log. -/
def baseStorage : Storage :=
  ⟨[einstein, cleopatra], [⟨"s1", some 1⟩], [], 1⟩

/-- A session that has no persona selected. -/
def noPersonaStorage : Storage :=
  ⟨[einstein], [⟨"s2", none⟩], [], 1⟩

/-- A session bound to a persona id that is missing from the catalog. -/
def danglingStorage : Storage :=
  ⟨[einstein], [⟨"s3", some 9⟩], [], 1⟩

/-- A session with one user message already in the log. -/
def msgStorage : Storage :=
  ⟨[einstein], [⟨"s1", some 1⟩], [⟨1, "s1", "user", "Hello", some 1⟩], 2⟩

/-- A session whose log holds a system message followed by a user/assistant
exchange. -/
def histStorage : Storage :=
  ⟨[einstein], [⟨"s1", some 1⟩],
    [⟨1, "s1", "system", "You are now chatting with Albert Einstein.", some 1⟩,
     ⟨2, "s1", "user", "Hello", some 1⟩,
     ⟨3, "s1", "assistant", "Greetings.", some 1⟩], 4⟩

/-! ### Claims -/

/-- C10: When the search operation receives an empty or missing query, it
returns the full persona catalog (all personas), not an empty subset and
not an error. -/
theorem searchRoute_emptyQuery_returnsAll (st : Storage) :
    searchRoute st none = st.personas
    ∧ searchRoute st (some "") = st.personas
    ∧ searchRoute st none = st.getPersonas := by
  refine ⟨rfl, rfl, rfl⟩

/-- C7 counterexample: clearing messages on a session whose log holds one
message answers 204 but leaves the log non-empty, so the claim that the
session's message list is empty afterwards fails. -/
theorem clearMessages_leavesLog_cex :
    (clearMessagesRoute msgStorage "s1").2 = .ok 204 ()
    ∧ (clearMessagesRoute msgStorage "s1").1.getMessagesBySessionId "s1"
        = [⟨1, "s1", "user", "Hello", some 1⟩] := by
  decide

/-- C7 amended: the clear-messages operation always succeeds with 204 and
is idempotent, even with zero messages — but it is a no-op in this
implementation: the session's message log is left unchanged, not emptied. -/
theorem clearMessages_alwaysSucceeds_noop (st : Storage) (sid : String) :
    clearMessagesRoute st sid = (st, .ok 204 ())
    ∧ clearMessagesRoute (clearMessagesRoute st sid).1 sid = clearMessagesRoute st sid
    ∧ (clearMessagesRoute st sid).1.getMessagesBySessionId sid
        = st.getMessagesBySessionId sid := by
  refine ⟨rfl, rfl, rfl⟩

/-- C5: a send-message request whose content is missing, empty, or
whitespace-only fails with the 400 validation error and leaves the store —
in particular the session's log — unchanged. -/
theorem sendMessage_blankContent_rejected (st : Storage) (sid : String)
    (content : Option String)
    (gen : Persona → List (String × String) → String → Option String)
    (hblank : content = none ∨ ∃ c, content = some c ∧ isBlank c = true) :
    sendMessageRoute st sid content gen
      = (st, .err (.validation "Message content is required"))
    ∧ (sendMessageRoute st sid content gen).1.getMessagesBySessionId sid
        = st.getMessagesBySessionId sid
    ∧ (ApiError.validation "Message content is required").status = 400 := by
  rcases hblank with h | ⟨c, hc, hb⟩
  · subst h
    exact ⟨rfl, rfl, rfl⟩
  · subst hc
    refine ⟨?_, ?_, rfl⟩ <;> simp [sendMessageRoute, hb]

/-- C5 witness: whitespace-only content on the seeded store. -/
theorem sendMessage_blankContent_rejected_witness :
    sendMessageRoute baseStorage "s1" (some "   ") (fun _ _ _ => some "h")
      = (baseStorage, .err (.validation "Message content is required"))
    ∧ (sendMessageRoute baseStorage "s1" (some "   ")
        (fun _ _ _ => some "h")).1.getMessagesBySessionId "s1"
        = baseStorage.getMessagesBySessionId "s1"
    ∧ (ApiError.validation "Message content is required").status = 400 :=
  sendMessage_blankContent_rejected baseStorage "s1" (some "   ")
    (fun _ _ _ => some "h") (Or.inr ⟨"   ", rfl, by decide⟩)

/-- C1: when the generator call fails, the send-message route leaves the
user's message persisted — the session's log grows by exactly one — and
answers the 503-mapped `generatorUnavailable` error, which is distinct
from the validation, not-found and internal error kinds. -/
theorem sendMessage_generatorFailure_persistsUser (st : Storage) (sid c : String)
    (sess : ChatSession) (pid : Nat) (persona : Persona)
    (gen : Persona → List (String × String) → String → Option String)
    (hblank : isBlank c = false)
    (hsess : st.getChatSessionById sid = some sess)
    (hpid : sess.currentPersonaId = some pid)
    (hper : st.getPersonaById pid = some persona)
    (hgen : ∀ p h m, gen p h m = none) :
    (sendMessageRoute st sid (some c) gen).2 = .err .generatorUnavailable
    ∧ ((sendMessageRoute st sid (some c) gen).1.getMessagesBySessionId sid).length
        = (st.getMessagesBySessionId sid).length + 1
    ∧ (sendMessageRoute st sid (some c) gen).1.messages
        = st.messages ++ [⟨st.nextMessageId, sid, "user", c, some pid⟩]
    ∧ ApiError.generatorUnavailable.status = 503
    ∧ ApiError.generatorUnavailable ≠ ApiError.validation "Message content is required"
    ∧ ApiError.generatorUnavailable ≠ ApiError.notFound "Chat session not found"
    ∧ ApiError.generatorUnavailable ≠ ApiError.notFound "Persona not found"
    ∧ ApiError.generatorUnavailable ≠ ApiError.internal := by
  have hroute : sendMessageRoute st sid (some c) gen
      = ({ st with
            messages := st.messages ++ [⟨st.nextMessageId, sid, "user", c, some pid⟩],
            nextMessageId := st.nextMessageId + 1 },
          .err .generatorUnavailable) := by
    simp [sendMessageRoute, hblank, hsess, hpid, hper, hgen, Storage.createMessage]
  rw [hroute]
  refine ⟨rfl, ?_, rfl, rfl, by decide, by decide, by decide, by decide⟩
  simp [Storage.getMessagesBySessionId, List.filter_append]

/-- C1 witness: a failing generator on the seeded store. -/
theorem sendMessage_generatorFailure_persistsUser_witness :
    (sendMessageRoute baseStorage "s1" (some "Hello") (fun _ _ _ => none)).2
      = .err .generatorUnavailable
    ∧ ((sendMessageRoute baseStorage "s1" (some "Hello")
        (fun _ _ _ => none)).1.getMessagesBySessionId "s1").length
        = (baseStorage.getMessagesBySessionId "s1").length + 1 :=
  ⟨(sendMessage_generatorFailure_persistsUser baseStorage "s1" "Hello" ⟨"s1", some 1⟩ 1
      einstein (fun _ _ _ => none) (by decide) (by decide) rfl (by decide)
      (fun _ _ _ => rfl)).1,
    (sendMessage_generatorFailure_persistsUser baseStorage "s1" "Hello" ⟨"s1", some 1⟩ 1
      einstein (fun _ _ _ => none) (by decide) (by decide) rfl (by decide)
      (fun _ _ _ => rfl)).2.1⟩

/-- Correctness of `listHasInfix`: it decides contiguous-sublist
containment. -/
theorem listHasInfix_iff (needle hay : List Char) :
    listHasInfix needle hay = true ↔ needle <:+: hay := by
  induction hay with
  | nil => simp [listHasInfix, List.isEmpty_iff]
  | cons c rest ih =>
    simp [listHasInfix, List.isPrefixOf_iff_prefix, ih, List.infix_cons_iff]

/-- Lowercasing distributes over string append. -/
theorem lowerChars_append (s t : String) :
    lowerChars (s ++ t) = lowerChars s ++ lowerChars t := by
  simp [lowerChars, String.toList, String.data_append]

/-- A string occurring between two others is found case-insensitively. -/
theorem containsCI_append_middle (a b c : String) :
    containsCI (a ++ b ++ c) b = true := by
  rw [containsCI, listHasInfix_iff, lowerChars_append, lowerChars_append]
  exact ⟨lowerChars a, lowerChars c, by simp⟩

/-- C2 counterexample: the create-or-resume route, handed an existing
session id and a differing persona id, changes the session's active
persona (from 1 to 2) while appending no message at all — so not every
persona-changing operation emits a system message. -/
theorem createSession_personaChange_noSystemMessage_cex :
    baseStorage.getChatSessionById "s1" = some ⟨"s1", some 1⟩
    ∧ (createSessionRoute baseStorage (some "s1") (some 2) "fresh").2 = .ok 200 ⟨"s1", some 2⟩
    ∧ (createSessionRoute baseStorage (some "s1") (some 2) "fresh").1.sessions = [⟨"s1", some 2⟩]
    ∧ (createSessionRoute baseStorage (some "s1") (some 2) "fresh").1.messages = [] := by
  decide

/-- C2 amended: the PATCH persona-change route appends exactly one
`system`-role message, placed after all prior messages (hence before any
later ones), whose content names the new persona; the create-or-resume
route can also change a session's persona but emits no such message. -/
theorem changePersona_appendsSystemMessage (st : Storage) (sid : String) (pid : Nat)
    (persona : Persona) (sess : ChatSession)
    (hper : st.getPersonaById pid = some persona)
    (hsess : st.getChatSessionById sid = some sess) :
    (changePersonaRoute st sid (some pid)).1.messages
      = st.messages ++ [⟨st.nextMessageId, sid, "system",
          "You are now chatting with " ++ persona.name ++ ".", some pid⟩]
    ∧ (changePersonaRoute st sid (some pid)).2
        = .ok 200 { sess with currentPersonaId := some pid }
    ∧ containsCI ("You are now chatting with " ++ persona.name ++ ".") persona.name = true := by
  refine ⟨?_, ?_, containsCI_append_middle _ _ _⟩ <;>
    simp [changePersonaRoute, hper, hsess, Storage.updateChatSessionPersona,
      Storage.createMessage]

/-- C2 witness: switching the seeded session to the second persona. -/
theorem changePersona_appendsSystemMessage_witness :
    (changePersonaRoute baseStorage "s1" (some 2)).1.messages
      = baseStorage.messages ++ [⟨baseStorage.nextMessageId, "s1", "system",
          "You are now chatting with " ++ cleopatra.name ++ ".", some 2⟩]
    ∧ (changePersonaRoute baseStorage "s1" (some 2)).2
        = .ok 200 ⟨"s1", some 2⟩
    ∧ containsCI ("You are now chatting with " ++ cleopatra.name ++ ".") cleopatra.name = true :=
  changePersona_appendsSystemMessage baseStorage "s1" 2 cleopatra ⟨"s1", some 1⟩
    (by decide) (by decide)

/-- C3 counterexample: create with an identifier that already exists and a
differing persona id does not return the existing session unchanged — the
returned session carries the new persona binding. -/
theorem createSession_existingId_mutates_cex :
    baseStorage.getChatSessionById "s1" = some ⟨"s1", some 1⟩
    ∧ (createSessionRoute baseStorage (some "s1") (some 2) "fresh").2 ≠ .ok 200 ⟨"s1", some 1⟩
    ∧ (createSessionRoute baseStorage (some "s1") (some 2) "fresh").2 = .ok 200 ⟨"s1", some 2⟩ := by
  decide

/-- C3 amended: create with an existing identifier returns the existing
session unchanged when no persona id is supplied or the supplied persona
id equals the current binding; a differing persona id that names an
existing persona rebinds the session's persona and the rebound session is
returned, with no error. -/
theorem createSession_upsert_byIdentifier (st : Storage) (sid freshId : String)
    (sess : ChatSession) (pid : Nat) (persona : Persona)
    (hpid : pid ≠ 0)
    (hsess : st.getChatSessionById sid = some sess)
    (hper : st.getPersonaById pid = some persona) :
    createSessionRoute st (some sid) none freshId = (st, .ok 200 sess)
    ∧ (sess.currentPersonaId = some pid →
        createSessionRoute st (some sid) (some pid) freshId = (st, .ok 200 sess))
    ∧ (sess.currentPersonaId ≠ some pid →
        (createSessionRoute st (some sid) (some pid) freshId).2
          = .ok 200 { sess with currentPersonaId := some pid }) := by
  cases pid with
  | zero => exact absurd rfl hpid
  | succ n =>
    refine ⟨by simp [createSessionRoute, hsess], fun h2 => ?_, fun h3 => ?_⟩
    · simp [createSessionRoute, hsess, h2]
    · simp [createSessionRoute, hsess, h3, hper, Storage.updateChatSessionPersona]

/-- C3 witness: resuming the seeded session with no persona id, the same
persona id, and a differing (existing) persona id. -/
theorem createSession_upsert_byIdentifier_witness :
    createSessionRoute baseStorage (some "s1") none "fresh"
      = (baseStorage, .ok 200 ⟨"s1", some 1⟩)
    ∧ createSessionRoute baseStorage (some "s1") (some 1) "fresh"
      = (baseStorage, .ok 200 ⟨"s1", some 1⟩)
    ∧ (createSessionRoute baseStorage (some "s1") (some 2) "fresh").2
      = .ok 200 ⟨"s1", some 2⟩ :=
  ⟨(createSession_upsert_byIdentifier baseStorage "s1" "fresh" ⟨"s1", some 1⟩ 1
      einstein (by decide) (by decide) (by decide)).1,
    (createSession_upsert_byIdentifier baseStorage "s1" "fresh" ⟨"s1", some 1⟩ 1
      einstein (by decide) (by decide) (by decide)).2.1 rfl,
    (createSession_upsert_byIdentifier baseStorage "s1" "fresh" ⟨"s1", some 1⟩ 2
      cleopatra (by decide) (by decide) (by decide)).2.2 (by decide)⟩

/-- C4 counterexample: starting from a store satisfying the persona
reference invariant, the create-or-resume route can create a session bound
to the nonexistent persona id 99 — both with a client-supplied unknown
identifier and with a server-generated fresh one — leaving the invariant
violated, since session creation performs no catalog check. -/
theorem createSession_breaksPersonaInvariant_cex :
    personaRefInvariant baseStorage = true
    ∧ personaRefInvariant (createSessionRoute baseStorage (some "s9") (some 99) "fresh").1 = false
    ∧ personaRefInvariant (createSessionRoute baseStorage none (some 99) "fresh").1 = false := by
  decide

/-- Sessions and catalog are untouched by the send-message route: it only
appends messages. -/
theorem sendMessageRoute_keepsSessionsPersonas (st : Storage) (sid : String)
    (content : Option String)
    (gen : Persona → List (String × String) → String → Option String) :
    (sendMessageRoute st sid content gen).1.sessions = st.sessions
    ∧ (sendMessageRoute st sid content gen).1.personas = st.personas := by
  unfold sendMessageRoute
  cases content with
  | none => exact ⟨rfl, rfl⟩
  | some c =>
    dsimp only [Storage.createMessage]
    repeat' split
    all_goals exact ⟨rfl, rfl⟩

/-- The persona-reference invariant only reads sessions and the catalog. -/
theorem personaRefInvariant_congr (st st' : Storage)
    (hs : st'.sessions = st.sessions) (hp : st'.personas = st.personas) :
    personaRefInvariant st' = personaRefInvariant st := by
  simp [personaRefInvariant, hs, hp]

/-- Session-persona rebinding keeps the persona-reference invariant: it
checks the catalog itself and fails (leaving the store unchanged) when the
persona is absent. -/
theorem updatePersona_preservesInvariant (st : Storage) (sid : String) (pid : Nat)
    (hinv : personaRefInvariant st = true) :
    personaRefInvariant (st.updateChatSessionPersona sid pid).1 = true := by
  unfold Storage.updateChatSessionPersona
  cases hfp : st.getPersonaById pid with
  | none => simpa using hinv
  | some persona =>
    cases hfs : st.getChatSessionById sid with
    | none => simpa using hinv
    | some sess =>
      have hfp' : st.personas.find? (fun p => p.id == pid) = some persona := hfp
      simp only [personaRefInvariant, List.all_eq_true, List.mem_map] at hinv ⊢
      rintro x ⟨t, ht, rfl⟩
      by_cases hts : (t.sessionId == sid) = true
      · simp only [hts, if_pos]
        have hpa := List.find?_some hfp'
        have hpm : persona ∈ st.personas := List.mem_of_find?_eq_some hfp'
        exact List.any_eq_true.mpr ⟨persona, hpm, hpa⟩
      · simp only [hts, if_neg]
        exact hinv t ht

/-- C4 amended: the persona-change route, the send-message route, the
clear-messages route, and the create-or-resume route on an existing
session (where a rebind to a missing persona fails in storage, mapped
to 500, leaving the store unchanged) all preserve the invariant that a
session's persona reference names an existing persona; only session
creation violates it (see the counterexample). -/
theorem routes_preservePersonaInvariant (st : Storage) (sid freshId : String)
    (pidOpt : Option Nat) (content : Option String)
    (gen : Persona → List (String × String) → String → Option String)
    (hinv : personaRefInvariant st = true) :
    personaRefInvariant (changePersonaRoute st sid pidOpt).1 = true
    ∧ personaRefInvariant (sendMessageRoute st sid content gen).1 = true
    ∧ personaRefInvariant (clearMessagesRoute st sid).1 = true
    ∧ (∀ sess, st.getChatSessionById sid = some sess →
        personaRefInvariant (createSessionRoute st (some sid) pidOpt freshId).1 = true) := by
  refine ⟨?_, ?_, hinv, ?_⟩
  · unfold changePersonaRoute
    cases pidOpt with
    | none => exact hinv
    | some pid =>
      cases hfp : st.getPersonaById pid with
      | none => simp only [hfp]; exact hinv
      | some persona =>
        simp only [hfp]
        cases hfs : st.getChatSessionById sid with
        | none => simp only [hfs]; exact hinv
        | some sess =>
          simp only [hfs]
          have hupd := updatePersona_preservesInvariant st sid pid hinv
          cases hu : st.updateChatSessionPersona sid pid with
          | mk st1 osess =>
            rw [hu] at hupd
            cases osess with
            | none => exact hupd
            | some updated => exact hupd
  · have h := sendMessageRoute_keepsSessionsPersonas st sid content gen
    rw [personaRefInvariant_congr st (sendMessageRoute st sid content gen).1 h.1 h.2]
    exact hinv
  · intro sess hsess
    unfold createSessionRoute
    cases pidOpt with
    | none => simp only [hsess]; exact hinv
    | some pid =>
      cases pid with
      | zero => simp only [hsess]; exact hinv
      | succ n =>
        simp only [hsess]
        by_cases hne : sess.currentPersonaId ≠ some (n + 1)
        · rw [if_pos hne]
          have hupd := updatePersona_preservesInvariant st sid (n + 1) hinv
          cases hu : st.updateChatSessionPersona sid (n + 1) with
          | mk st1 osess =>
            rw [hu] at hupd
            cases osess with
            | none => exact hupd
            | some updated => exact hupd
        · rw [if_neg hne]
          exact hinv

/-- C4 witness: the preserving routes, including resume-with-rebind, run
on the seeded store. -/
theorem routes_preservePersonaInvariant_witness :
    personaRefInvariant (changePersonaRoute baseStorage "s1" (some 2)).1 = true
    ∧ personaRefInvariant (sendMessageRoute baseStorage "s1" (some "Hello")
        (fun _ _ _ => some "Hi")).1 = true
    ∧ personaRefInvariant (clearMessagesRoute baseStorage "s1").1 = true
    ∧ personaRefInvariant (createSessionRoute baseStorage (some "s1") (some 2) "fresh").1
        = true :=
  ⟨(routes_preservePersonaInvariant baseStorage "s1" "fresh" (some 2) (some "Hello")
      (fun _ _ _ => some "Hi") (by decide)).1,
    (routes_preservePersonaInvariant baseStorage "s1" "fresh" (some 2) (some "Hello")
      (fun _ _ _ => some "Hi") (by decide)).2.1,
    (routes_preservePersonaInvariant baseStorage "s1" "fresh" (some 2) (some "Hello")
      (fun _ _ _ => some "Hi") (by decide)).2.2.1,
    (routes_preservePersonaInvariant baseStorage "s1" "fresh" (some 2) (some "Hello")
      (fun _ _ _ => some "Hi") (by decide)).2.2.2 ⟨"s1", some 1⟩ (by decide)⟩

/-- C6: with non-blank content the send-message route answers 404 when the
session is missing, then 400 when the session has no persona selected,
then 404 when the bound persona is missing — each before persisting
anything (the store is returned unchanged) — and on success returns 201
with exactly the pair of persisted messages (user then assistant). -/
theorem sendMessage_checkOrder (st : Storage) (sid c : String)
    (gen : Persona → List (String × String) → String → Option String)
    (hblank : isBlank c = false) :
    (st.getChatSessionById sid = none →
      sendMessageRoute st sid (some c) gen
        = (st, .err (.notFound "Chat session not found")))
    ∧ (∀ sess, st.getChatSessionById sid = some sess → sess.currentPersonaId = none →
        sendMessageRoute st sid (some c) gen
          = (st, .err (.validation "No persona selected for this chat session")))
    ∧ (∀ sess pid, st.getChatSessionById sid = some sess →
        sess.currentPersonaId = some pid → st.getPersonaById pid = none →
        sendMessageRoute st sid (some c) gen
          = (st, .err (.notFound "Persona not found")))
    ∧ (∀ sess pid persona a, st.getChatSessionById sid = some sess →
        sess.currentPersonaId = some pid → st.getPersonaById pid = some persona →
        gen persona (conversationHistorySent
          (st.createMessage sid "user" c (some pid)).1 sid) c = some a →
        sendMessageRoute st sid (some c) gen
          = (((st.createMessage sid "user" c (some pid)).1.createMessage
                sid "assistant" a (some pid)).1,
              .ok 201 ((st.createMessage sid "user" c (some pid)).2,
                ((st.createMessage sid "user" c (some pid)).1.createMessage
                  sid "assistant" a (some pid)).2)))
    ∧ (ApiError.notFound "Chat session not found").status = 404
    ∧ (ApiError.validation "No persona selected for this chat session").status = 400
    ∧ (ApiError.notFound "Persona not found").status = 404 := by
  refine ⟨?_, ?_, ?_, ?_, rfl, rfl, rfl⟩
  · intro h; simp [sendMessageRoute, hblank, h]
  · intro sess h1 h2; simp [sendMessageRoute, hblank, h1, h2]
  · intro sess pid h1 h2 h3; simp [sendMessageRoute, hblank, h1, h2, h3]
  · intro sess pid persona a h1 h2 h3 h4
    simp [sendMessageRoute, hblank, h1, h2, h3, h4]

/-- C6 witness: the four outcomes on concrete stores — missing session,
session without persona, dangling persona id, and a successful send. -/
theorem sendMessage_checkOrder_witness :
    sendMessageRoute baseStorage "nope" (some "Hello") (fun _ _ _ => some "Hi")
      = (baseStorage, .err (.notFound "Chat session not found"))
    ∧ sendMessageRoute noPersonaStorage "s2" (some "Hello") (fun _ _ _ => some "Hi")
      = (noPersonaStorage, .err (.validation "No persona selected for this chat session"))
    ∧ sendMessageRoute danglingStorage "s3" (some "Hello") (fun _ _ _ => some "Hi")
      = (danglingStorage, .err (.notFound "Persona not found"))
    ∧ sendMessageRoute baseStorage "s1" (some "Hello") (fun _ _ _ => some "Hi")
      = (((baseStorage.createMessage "s1" "user" "Hello" (some 1)).1.createMessage
            "s1" "assistant" "Hi" (some 1)).1,
          .ok 201 ((baseStorage.createMessage "s1" "user" "Hello" (some 1)).2,
            ((baseStorage.createMessage "s1" "user" "Hello" (some 1)).1.createMessage
              "s1" "assistant" "Hi" (some 1)).2)) :=
  ⟨(sendMessage_checkOrder baseStorage "nope" "Hello" (fun _ _ _ => some "Hi")
      (by decide)).1 (by decide),
    (sendMessage_checkOrder noPersonaStorage "s2" "Hello" (fun _ _ _ => some "Hi")
      (by decide)).2.1 ⟨"s2", none⟩ (by decide) rfl,
    (sendMessage_checkOrder danglingStorage "s3" "Hello" (fun _ _ _ => some "Hi")
      (by decide)).2.2.1 ⟨"s3", some 9⟩ 9 (by decide) rfl (by decide),
    (sendMessage_checkOrder baseStorage "s1" "Hello" (fun _ _ _ => some "Hi")
      (by decide)).2.2.2.1 ⟨"s1", some 1⟩ 1 einstein "Hi" (by decide) rfl (by decide) rfl⟩

/-- C8 counterexample: with a system message in the log, the history handed
to the generator is not "the prior messages excluding exactly the just-sent
user message" — the system message is excluded too.  The final conjunct
runs the route with a generator that only answers when handed exactly the
system-free history and the new text separately, and it succeeds. -/
theorem conversationHistory_notAllPrior_cex :
    conversationHistorySent (histStorage.createMessage "s1" "user" "Tell me more" (some 1)).1 "s1"
      = [("user", "Hello"), ("assistant", "Greetings.")]
    ∧ (histStorage.getMessagesBySessionId "s1").map (fun m => (m.role, m.content))
      = [("system", "You are now chatting with Albert Einstein."),
         ("user", "Hello"), ("assistant", "Greetings.")]
    ∧ conversationHistorySent (histStorage.createMessage "s1" "user" "Tell me more" (some 1)).1 "s1"
      ≠ (histStorage.getMessagesBySessionId "s1").map (fun m => (m.role, m.content))
    ∧ (sendMessageRoute histStorage "s1" (some "Tell me more")
        (fun _ h m =>
          if h = [("user", "Hello"), ("assistant", "Greetings.")] ∧ m = "Tell me more"
          then some "ok" else none)).2
      = .ok 201 (⟨4, "s1", "user", "Tell me more", some 1⟩,
          ⟨5, "s1", "assistant", "ok", some 1⟩) := by
  decide

/-- C8 amended: the history passed to the generator is the session's prior
non-system messages, in order, as (role, content) pairs — excluding the
just-sent user message (and every system message), with the new text
passed separately. -/
theorem conversationHistory_nonSystemPrior (st : Storage) (sid c : String) (pid : Option Nat) :
    conversationHistorySent (st.createMessage sid "user" c pid).1 sid
      = ((st.getMessagesBySessionId sid).filter (fun m => m.role ≠ "system")).map
          (fun m => (m.role, m.content)) := by
  simp [conversationHistorySent, Storage.createMessage, Storage.getMessagesBySessionId,
    List.filter_append, List.map_append, List.dropLast_concat]

/-- C9: for a non-empty query the search route returns exactly the subset
of personas whose name or description contains the query
case-insensitively; the sidebar filter (with the `All` category) computes
the same subset; and a query matching nothing yields the empty list, with
no error outcome. -/
theorem searchPersonas_subset (st : Storage) (personas : List Persona) (q : String)
    (hq : q ≠ "") :
    searchRoute st (some q) = st.personas.filter (personaMatches q)
    ∧ filteredPersonas personas q "All" = personas.filter (personaMatches q)
    ∧ ((∀ p ∈ st.personas, personaMatches q p = false) →
        searchRoute st (some q) = []) := by
  have h1 : searchRoute st (some q) = st.personas.filter (personaMatches q) := by
    simp [searchRoute, hq, Storage.searchPersonas]
  refine ⟨h1, ?_, fun hall => ?_⟩
  · unfold filteredPersonas
    apply List.filter_congr
    intro p hp
    have hbq : (q == "") = false := by simpa using hq
    simp [hbq, personaMatches]
  · rw [h1, List.filter_eq_nil_iff]
    intro a ha
    simp [hall a ha]

/-- C9 witness: a matching query, the sidebar filter on the same catalog,
and a query matching no persona. -/
theorem searchPersonas_subset_witness :
    searchRoute baseStorage (some "cleo")
      = baseStorage.personas.filter (personaMatches "cleo")
    ∧ filteredPersonas [einstein, cleopatra] "cleo" "All"
      = [einstein, cleopatra].filter (personaMatches "cleo")
    ∧ searchRoute baseStorage (some "zzz") = [] :=
  ⟨(searchPersonas_subset baseStorage [einstein, cleopatra] "cleo" (by decide)).1,
    (searchPersonas_subset baseStorage [einstein, cleopatra] "cleo" (by decide)).2.1,
    (searchPersonas_subset baseStorage [einstein, cleopatra] "zzz" (by decide)).2.2
      (by decide)⟩
